import Mathlib

/-!
Verification of the tennispredictor bracket-flattening and match-normalization
pipeline, shallowly embedded from the Python sources
(`src/dataprocessor.py`, `src/datacombiner.py`, `src/featuresbuilder.py`).

Modelling conventions:
* pandas DataFrames become Lean lists of records (one structure per table
  schema); positional list indexing models the fresh contiguous row index.
* Python `None` / missing values (NaN) become `Option`.
* Python `raise` becomes `Except String`.
* In-place mutation of input dictionaries (`block['result'] = ...`,
  `team['winner'] = ...`) is modelled by explicit state passing: the
  per-block step returns the post-state of the block next to its output.
* `np.random.randint(low, high, n)` is modelled by an abstract draw
  function together with numpy's documented contract: it returns `n`
  values, each in the half-open interval `[low, high)` (`high` exclusive).
-/

set_option linter.unusedVariables false

/-- Decidable equality for `Except`, so outcomes evaluate with `decide`. -/
instance instDecEqExcept [DecidableEq ε] [DecidableEq α] : DecidableEq (Except ε α) :=
  fun a b =>
    match a, b with
    | .error x, .error y =>
      match decEq x y with
      | isTrue h => isTrue (h ▸ rfl)
      | isFalse h => isFalse fun he => h (Except.error.inj he)
    | .ok x, .ok y =>
      match decEq x y with
      | isTrue h => isTrue (h ▸ rfl)
      | isFalse h => isFalse fun he => h (Except.ok.inj he)
    | .error _, .ok _ => isFalse Except.noConfusion
    | .ok _, .error _ => isFalse Except.noConfusion

/-! ### Generic string helpers (character-level, so everything reduces) -/

/-- `startsWithL pat s`: `pat` is an initial segment of `s`. -/
def startsWithL : List Char → List Char → Bool
  | [], _ => true
  | _ :: _, [] => false
  | p :: ps, c :: cs => p == c && startsWithL ps cs

/-- `hasSubL pat s`: `pat` occurs as a contiguous substring of `s`
(Python's `pat in s` / `re.search` for a literal pattern). -/
def hasSubL (pat : List Char) : List Char → Bool
  | [] => startsWithL pat []
  | c :: cs => startsWithL pat (c :: cs) || hasSubL pat cs

/-- String-level substring test, Python's `pat in s`. -/
def strContainsSub (pat s : String) : Bool :=
  hasSubL pat.toList s.toList

/-- Fuel-driven replace-all on character lists (Python `str.replace`)
for a non-empty pattern; fuel is the input length, which suffices. -/
def replaceAllAux (pat rep : List Char) : Nat → List Char → List Char
  | 0, s => s
  | _ + 1, [] => []
  | fuel + 1, c :: cs =>
    if startsWithL pat (c :: cs) then
      rep ++ replaceAllAux pat rep fuel ((c :: cs).drop pat.length)
    else
      c :: replaceAllAux pat rep fuel cs

/-- Python `s.replace(pat, rep)` for a non-empty `pat`. -/
def replaceAll (s pat rep : String) : String :=
  ⟨replaceAllAux pat.toList rep.toList s.toList.length s.toList⟩

/-- ASCII lowercasing on the character list (Python `str.lower` on the
ASCII strings this pipeline handles). -/
def toLowerStr (s : String) : String :=
  ⟨s.toList.map Char.toLower⟩

/-- Python `int()` on an optionally signed run of decimal digits (the
shapes that occur in result strings); any other character raises, which
`none` models. -/
def parseNatDigitsAux : List Char → Nat → Option Nat
  | [], acc => some acc
  | c :: cs, acc =>
    if c.isDigit then parseNatDigitsAux cs (acc * 10 + (c.toNat - 48))
    else none

/-- All-digit parse of a non-empty character list. -/
def parseNatDigits : List Char → Option Nat
  | [] => none
  | l => parseNatDigitsAux l 0

/-- `int(s)` for an optionally `-`-signed digit string. -/
def pyInt? (s : String) : Option Int :=
  match s.toList with
  | '-' :: rest => (parseNatDigits rest).map (fun n => -(n : Int))
  | l => (parseNatDigits l).map (fun n => (n : Int))

/-- Split on a separator character, Python `s.split(sep)` semantics
(always at least one piece; empty pieces kept). -/
def splitCharAux (sep : Char) : List Char → List Char → List (List Char)
  | [], acc => [acc.reverse]
  | c :: cs, acc =>
    if c = sep then acc.reverse :: splitCharAux sep cs []
    else splitCharAux sep cs (c :: acc)

/-- Python `s.split(':')`. -/
def splitColon (s : String) : List String :=
  (splitCharAux ':' s.toList []).map (fun l => ⟨l⟩)

/-! ### ScoreValidator (`TennisDataProcessor.validate_score_format`) -/

/-- A character in the regex character class `[0-3]`. -/
def isScoreDigit (c : Char) : Bool :=
  c = '0' || c = '1' || c = '2' || c = '3'

/-- Full match of the regex `^[0-3]:[0-3]$`. -/
def scoreFormatOk (s : String) : Bool :=
  match s.toList with
  | [a, c, b] => isScoreDigit a && c = ':' && isScoreDigit b
  | _ => false

/-- `validate_score_format`: `if score and pattern.match(score)` — a `None`
or empty score is falsy and rejected, otherwise the regex decides. -/
def validate_score_format (score : Option String) : Bool :=
  match score with
  | none => false
  | some s => decide (s ≠ "") && scoreFormatOk s

/-! ### RoundClassifier (`TennisDataProcessor.map_round_description`) -/

/-- `re.search(r'qualification|qualifying', s, re.IGNORECASE)` as a
case-insensitive substring test. -/
def containsQualSubstr (s : String) : Bool :=
  strContainsSub "qualification" (toLowerStr s) ||
  strContainsSub "qualifying" (toLowerStr s)

/-- The fixed `round_map` lookup table, in source order. -/
def round_map : List (String × String) :=
  [("R128", "R128"), ("R64", "R64"), ("R32", "R32"), ("R16", "R16"),
   ("Quarterfinals", "QF"), ("Quarterfinal", "QF"),
   ("Semifinals", "SF"), ("Semifinal", "SF"), ("Final", "F"),
   ("1/32", "R32"), ("1/16", "R16"), ("1/8", "R8"),
   ("Qualification", "Q"), ("Qualification round 1", "Q"),
   ("Qualification round 2", "Q"), ("Qualification Final", "Q"),
   ("Qualification final", "Q"),
   ("Round of 128", "R128"), ("Round of 64", "R64"),
   ("Round of 32", "R32"), ("Round of 16", "R16")]

/-- `map_round_description`: empty label → `""`; qualifying-substring
(case-insensitive) → `"Q"`; else exact lookup in `round_map`; unknown
labels raise `ValueError`. -/
def map_round_description (rd : String) : Except String String :=
  if rd = "" then .ok ""
  else if containsQualSubstr rd then .ok "Q"
  else
    match round_map.find? (fun p => p.1 = rd) with
    | some p => .ok p.2
    | none => .error ("Unknown round description: " ++ rd)

/-! ### Data model: brackets, rounds, blocks, participants -/

/-- A participant's `team` sub-record; `winner`, `order`, `teamSeed` start
absent (`none`) and are written into the dict by roster extraction. -/
structure Team where
  id : Option Int
  name : String
  slug : String
  shortName : String
  gender : String
  nameCode : String
  ranking : Option Int
  disabled : Bool
  national : Bool
  winner : Option Bool := none
  order : Option Int := none
  teamSeed : Option String := none
deriving DecidableEq, Repr

/-- A raw participant entry of a block. -/
structure Participant where
  team : Team
  winner : Option Bool
  order : Option Int
  teamSeed : Option String
deriving DecidableEq, Repr

/-- A raw match block. `result` may be a score string, a status string,
malformed, or absent. -/
structure Block where
  id : Option Int
  finished : Bool
  result : Option String
  homeTeamScore : String
  awayTeamScore : String
  participants : List Participant
  seriesStartDateTimestamp : Option Int
  events : Option String
deriving DecidableEq, Repr

/-- One round of a bracket: free-text description plus blocks. -/
structure Round where
  description : String
  blocks : List Block
deriving DecidableEq, Repr

/-- One tournament-season bracket (cup tree row), with the two tournament
name fields read by the flattener. -/
structure BracketDoc where
  tournamentName : String
  uniqueTournament : String
  rounds : List Round
deriving DecidableEq, Repr

/-! ### Roster extraction (`TennisDataProcessor.get_all_participants`) -/

/-- The projected participant roster row: the columns
`['name','slug','shortName','gender','nameCode','ranking','disabled','national','id']`
kept by `get_all_participants`. -/
structure ParticipantRow where
  name : String
  slug : String
  shortName : String
  gender : String
  nameCode : String
  ranking : Option Int
  disabled : Bool
  national : Bool
  id : Option Int
deriving DecidableEq, Repr

/-- The in-place writes `team['winner'] = ...`, `team['order'] = ...`,
`team['teamSeed'] = ...` performed on the input team dict. -/
def mutateTeam (p : Participant) : Team :=
  { p.team with winner := p.winner, order := p.order, teamSeed := p.teamSeed }

/-- Column projection applied to a (mutated) team dict. -/
def projectParticipant (t : Team) : ParticipantRow :=
  { name := t.name, slug := t.slug, shortName := t.shortName,
    gender := t.gender, nameCode := t.nameCode, ranking := t.ranking,
    disabled := t.disabled, national := t.national, id := t.id }

/-- One step of keep-first de-duplication: append a row unless an equal
row was already kept. -/
def dedupStep [DecidableEq α] (acc : List α) (x : α) : List α :=
  if x ∈ acc then acc else acc ++ [x]

/-- pandas `drop_duplicates()` (keep first): remove every later row equal
to an earlier row, over all columns. -/
def dropDuplicates [DecidableEq α] (l : List α) : List α :=
  l.foldl dedupStep []

/-- `get_all_participants` over one cuptree DataFrame (a list of bracket
rows): flatten rounds → blocks → participants, mutate each team dict,
project the roster columns and drop duplicate rows. -/
def get_all_participants (brackets : List BracketDoc) : List ParticipantRow :=
  dropDuplicates
    (brackets.flatMap fun br =>
      br.rounds.flatMap fun r =>
        r.blocks.flatMap fun b =>
          b.participants.map fun p => projectParticipant (mutateTeam p))

/-- Post-state of the input structure after roster extraction: every
participant's team dict has received the `winner`/`order`/`teamSeed` keys. -/
def rosterPostTeams (brackets : List BracketDoc) : List Team :=
  brackets.flatMap fun br =>
    br.rounds.flatMap fun r =>
      r.blocks.flatMap fun b => b.participants.map mutateTeam

/-- `process_all_data`'s cross-file roster: per-file rosters concatenated,
then `drop_duplicates()` again over full rows. -/
def allParticipants (files : List (List BracketDoc)) : List ParticipantRow :=
  dropDuplicates (files.flatMap get_all_participants)

/-! ### Match extraction (`TennisDataProcessor.extract_games_from_cuptree`) -/

/-- The lowercased terminal results that make a block skipped entirely. -/
def skipResults : List String := ["retired", "walkover", "0:0"]

/-- The sentinel status strings that trigger the in-place rewrite of
`result` to `"<homeTeamScore>:<awayTeamScore>"` (exact-match, sensitive
to case). -/
def sentinelResults : List String := ["home won", "away won", "on-going"]

/-- `if block.get('result') and block.get('result').lower() in
['retired', 'walkover', '0:0']` — an absent result is falsy, so never
skipped here. -/
def isSkipped (b : Block) : Bool :=
  match b.result with
  | some r => skipResults.contains (toLowerStr r)
  | none => false

/-- `elif block.get('result') in ['home won', 'away won', 'on-going']`
tested on a non-skipped block. -/
def isSentinel (b : Block) : Bool :=
  match b.result with
  | some r => sentinelResults.contains r
  | none => false

/-- One flattened match row: the columns selected at the end of
`extract_games_from_cuptree`, with `seriesStartDate` the parsed timestamp
(`errors='coerce'`: missing stays missing). -/
structure MatchRecord where
  finished : Bool
  result : Option String
  homeTeamScore : String
  awayTeamScore : String
  id : Option Int
  events : Option String
  seriesStartDate : Option Int
  home_id : Option Int
  away_id : Option Int
  round_description : String
  tournamentName : String
  uniqueTournament : String
deriving DecidableEq, Repr

/-- The in-place rewrite `block['result'] = block['homeTeamScore'] + ':'
+ block['awayTeamScore']` applied when the result is a sentinel status. -/
def rewriteSentinel (b : Block) : Block :=
  if isSentinel b then
    { b with result := some (b.homeTeamScore ++ ":" ++ b.awayTeamScore) }
  else b

/-- Per-block step of the flattener. Returns the post-state of the input
block (the source mutates `block['result']` in place before taking
`block.copy()`) together with the emission outcome: `none` for a skipped
block, a `MatchRecord` otherwise, or the error raised by
`map_round_description`. The score-format validation is only logged and
therefore has no effect on the outcome. -/
def processBlock (tN uT desc : String) (b : Block) :
    Block × Except String (Option MatchRecord) :=
  if isSkipped b then (b, .ok none)
  else
    let b' := rewriteSentinel b
    match b'.participants with
    | [] => (b', .ok none)
    | p :: rest =>
      match map_round_description desc with
      | .error e => (b', .error e)
      | .ok rd =>
        (b', .ok (some
          { finished := b'.finished, result := b'.result,
            homeTeamScore := b'.homeTeamScore,
            awayTeamScore := b'.awayTeamScore,
            id := b'.id, events := b'.events,
            seriesStartDate := b'.seriesStartDateTimestamp,
            home_id := p.team.id,
            away_id := match rest with
              | [] => none
              | q :: _ => q.team.id,
            round_description := rd,
            tournamentName := tN, uniqueTournament := uT }))

/-- Fold `processBlock` over the blocks of one round, collecting emitted
records and stopping at the first raised error (fail-fast). -/
def extractFromBlocks (tN uT desc : String) :
    List Block → Except String (List MatchRecord)
  | [] => .ok []
  | b :: bs =>
    match (processBlock tN uT desc b).2 with
    | .error e => .error e
    | .ok o =>
      match extractFromBlocks tN uT desc bs with
      | .error e => .error e
      | .ok rest =>
        .ok (match o with
          | some r => r :: rest
          | none => rest)

/-- Flatten the rounds of one bracket row. -/
def extractFromRounds (tN uT : String) :
    List Round → Except String (List MatchRecord)
  | [] => .ok []
  | r :: rs =>
    match extractFromBlocks tN uT r.description r.blocks with
    | .error e => .error e
    | .ok here =>
      match extractFromRounds tN uT rs with
      | .error e => .error e
      | .ok rest => .ok (here ++ rest)

/-- `extract_games_from_cuptree` over a cuptree DataFrame (list of bracket
rows), in insertion order. -/
def extract_games_from_cuptree : List BracketDoc → Except String (List MatchRecord)
  | [] => .ok []
  | br :: brs =>
    match extractFromRounds br.tournamentName br.uniqueTournament br.rounds with
    | .error e => .error e
    | .ok here =>
      match extract_games_from_cuptree brs with
      | .error e => .error e
      | .ok rest => .ok (here ++ rest)

/-! ### DatasetMerger (`TennisDataCombiner.participant_features`, `combine_data`) -/

/-- `pd.Timestamp("1970-01-01").value // 10**9`. -/
def birthLow : Nat := 0

/-- `pd.Timestamp("2005-12-31").value // 10**9` (midnight of 2005-12-31,
13148 days of 86400 seconds after the epoch). -/
def birthHigh : Nat := 1135987200

/-- `.normalize()`: truncate a second-resolution timestamp to midnight. -/
def normalizeDay (t : Nat) : Nat := t / 86400 * 86400

/-- A participant-features row: the `[['id', 'name', 'birthdate']]`
projection used by `combine_data`; `birthdate` is a normalized epoch
second count. -/
structure PartFeature where
  id : Option Int
  name : String
  birthdate : Nat
deriving DecidableEq, Repr

/-- `participant_features`: assign each roster row a synthetic birthdate.
The source seeds numpy with the fixed seed 42 and calls
`np.random.randint(birthLow, birthHigh, n)`; the generator is modelled by
the abstract `draw` function (numpy's contract — `n` values, each in
`[low, high)` with `high` exclusive — is imposed as a hypothesis where
needed). -/
def participant_features (draw : Nat → Nat → Nat → List Nat)
    (roster : List ParticipantRow) : List PartFeature :=
  List.zipWith (fun (r : ParticipantRow) (b : Nat) =>
      { id := r.id, name := r.name, birthdate := normalizeDay b : PartFeature })
    roster (draw birthLow birthHigh roster.length)

/-- An enriched match row (`combine_data` output): the games columns
followed by the home- then away-suffixed participant columns, in pandas
merge order. -/
structure EnrichedRow where
  finished : Bool
  result : Option String
  homeTeamScore : String
  awayTeamScore : String
  id : Option Int
  events : Option String
  seriesStartDate : Option Int
  home_id : Option Int
  away_id : Option Int
  round_description : String
  tournamentName : String
  uniqueTournament : String
  id_home : Option Int
  name_home : String
  birthdate_home : Nat
  id_away : Option Int
  name_away : String
  birthdate_away : Nat
deriving DecidableEq, Repr

/-- pandas merge key equality: missing keys never join. -/
def joinKey (a b : Option Int) : Bool :=
  match a, b with
  | some x, some y => x == y
  | _, _ => false

/-- Build one enriched row from a game and its two joined participants. -/
def mkEnriched (g : MatchRecord) (ph pa : PartFeature) : EnrichedRow :=
  { finished := g.finished, result := g.result,
    homeTeamScore := g.homeTeamScore, awayTeamScore := g.awayTeamScore,
    id := g.id, events := g.events, seriesStartDate := g.seriesStartDate,
    home_id := g.home_id, away_id := g.away_id,
    round_description := g.round_description,
    tournamentName := g.tournamentName, uniqueTournament := g.uniqueTournament,
    id_home := ph.id, name_home := ph.name, birthdate_home := ph.birthdate,
    id_away := pa.id, name_away := pa.name, birthdate_away := pa.birthdate }

/-- The two inner joins of `combine_data` (before symmetrization): a game
row survives only with a resolvable participant row on each side. -/
def innerJoinGames (games : List MatchRecord) (parts : List PartFeature) :
    List EnrichedRow :=
  games.flatMap fun g =>
    parts.flatMap fun ph =>
      if joinKey g.home_id ph.id then
        parts.filterMap fun pa =>
          if joinKey g.away_id pa.id then some (mkEnriched g ph pa) else none
      else []

/-! ### MatchSymmetrizer (`TennisDataCombiner.symmetrize_games`) -/

/-- The nested `reverse_result` helper: a string containing `':'` is split
and its first two pieces are emitted swapped; anything else passes through
unchanged. -/
def reverse_result : Option String → Option String
  | none => none
  | some r =>
    let parts := splitColon r
    if 1 < parts.length then some (parts.getD 1 "" ++ ":" ++ parts.getD 0 "")
    else some r

/-- The enriched table's column names, in schema order, as iterated by
`for col in df.columns`. -/
def enrichedColumns : List String :=
  ["finished", "result", "homeTeamScore", "awayTeamScore", "id", "events",
   "seriesStartDate", "home_id", "away_id", "round_description",
   "tournamentName", "uniqueTournament", "id_home", "name_home",
   "birthdate_home", "id_away", "name_away", "birthdate_away"]

/-- A dynamically-typed cell value, for the column-name-driven swap. -/
inductive ColValue where
  | vbool : Bool → ColValue
  | vstr : String → ColValue
  | vostr : Option String → ColValue
  | voint : Option Int → ColValue
  | vnat : Nat → ColValue
deriving DecidableEq, Repr

/-- `df[col]` for one enriched row. -/
def getCol (r : EnrichedRow) (c : String) : ColValue :=
  if c = "finished" then .vbool r.finished
  else if c = "result" then .vostr r.result
  else if c = "homeTeamScore" then .vstr r.homeTeamScore
  else if c = "awayTeamScore" then .vstr r.awayTeamScore
  else if c = "id" then .voint r.id
  else if c = "events" then .vostr r.events
  else if c = "seriesStartDate" then .voint r.seriesStartDate
  else if c = "home_id" then .voint r.home_id
  else if c = "away_id" then .voint r.away_id
  else if c = "round_description" then .vstr r.round_description
  else if c = "tournamentName" then .vstr r.tournamentName
  else if c = "uniqueTournament" then .vstr r.uniqueTournament
  else if c = "id_home" then .voint r.id_home
  else if c = "name_home" then .vstr r.name_home
  else if c = "birthdate_home" then .vnat r.birthdate_home
  else if c = "id_away" then .voint r.id_away
  else if c = "name_away" then .vstr r.name_away
  else if c = "birthdate_away" then .vnat r.birthdate_away
  else .vstr ""

/-- `swapped[col] = v` for one enriched row (a type-mismatched write, which
never happens on this schema, leaves the row unchanged). -/
def setCol (r : EnrichedRow) (c : String) (v : ColValue) : EnrichedRow :=
  if c = "finished" then match v with | .vbool x => { r with finished := x } | _ => r
  else if c = "result" then match v with | .vostr x => { r with result := x } | _ => r
  else if c = "homeTeamScore" then match v with | .vstr x => { r with homeTeamScore := x } | _ => r
  else if c = "awayTeamScore" then match v with | .vstr x => { r with awayTeamScore := x } | _ => r
  else if c = "id" then match v with | .voint x => { r with id := x } | _ => r
  else if c = "events" then match v with | .vostr x => { r with events := x } | _ => r
  else if c = "seriesStartDate" then match v with | .voint x => { r with seriesStartDate := x } | _ => r
  else if c = "home_id" then match v with | .voint x => { r with home_id := x } | _ => r
  else if c = "away_id" then match v with | .voint x => { r with away_id := x } | _ => r
  else if c = "round_description" then match v with | .vstr x => { r with round_description := x } | _ => r
  else if c = "tournamentName" then match v with | .vstr x => { r with tournamentName := x } | _ => r
  else if c = "uniqueTournament" then match v with | .vstr x => { r with uniqueTournament := x } | _ => r
  else if c = "id_home" then match v with | .voint x => { r with id_home := x } | _ => r
  else if c = "name_home" then match v with | .vstr x => { r with name_home := x } | _ => r
  else if c = "birthdate_home" then match v with | .vnat x => { r with birthdate_home := x } | _ => r
  else if c = "id_away" then match v with | .voint x => { r with id_away := x } | _ => r
  else if c = "name_away" then match v with | .vstr x => { r with name_away := x } | _ => r
  else if c = "birthdate_away" then match v with | .vnat x => { r with birthdate_away := x } | _ => r
  else r

/-- One iteration of the column loop: a column whose name contains
`"home"` (resp. `"away"`) whose counterpart column exists gets the
counterpart's original value, and the counterpart gets its original
value — both reads from the original row `orig`, as in the source where
both right-hand sides read from `df`. -/
def swapStep (orig : EnrichedRow) (acc : EnrichedRow) (col : String) : EnrichedRow :=
  if strContainsSub "home" col then
    let awayCol := replaceAll col "home" "away"
    if enrichedColumns.contains awayCol then
      setCol (setCol acc col (getCol orig awayCol)) awayCol (getCol orig col)
    else acc
  else if strContainsSub "away" col then
    let homeCol := replaceAll col "away" "home"
    if enrichedColumns.contains homeCol then
      setCol (setCol acc col (getCol orig homeCol)) homeCol (getCol orig col)
    else acc
  else acc

/-- The mirrored version of one enriched row: the column loop over the
schema, then the `result` reversal (`swapped['result'] =
df['result'].apply(reverse_result)`). -/
def swapRow (r : EnrichedRow) : EnrichedRow :=
  let s := enrichedColumns.foldl (swapStep r) r
  { s with result := reverse_result r.result }

/-- `symmetrize_games`: originals followed by mirrored rows,
`ignore_index=True` + `reset_index` modelled by positional indexing. -/
def symmetrize_games (df : List EnrichedRow) : List EnrichedRow :=
  df ++ df.map swapRow

/-! ### FeatureDeriver (`FeatureBuilder.define_label`, `build_features`) -/

/-- `define_label`: a string containing `':'` is split and its first two
pieces parsed as integers (`int()` raising on an unparsable piece), the
comparison deciding `home` vs `away`; anything else raises `ValueError`. -/
def define_label : Option String → Except String String
  | none => .error "Invalid result format: nan"
  | some r =>
    let parts := splitColon r
    if 1 < parts.length then
      match pyInt? (parts.getD 0 ""), pyInt? (parts.getD 1 "") with
      | some h, some a => if h > a then .ok "home" else .ok "away"
      | _, _ => .error ("invalid literal for int: " ++ r)
    else .error ("Invalid result format: " ++ r)

/-- The fixed surface table keyed by `uniqueTournament` name. -/
def tournament_surfaces : List (String × String) :=
  [("Australian Open", "Hard"), ("Roland Garros", "Clay")]

/-- The fixed stage-ordering table. -/
def ordinal_mapping : List (String × Nat) :=
  [("Q1", 1), ("Q2", 2), ("Q", 3), ("R128", 4), ("R64", 5), ("R32", 6),
   ("R16", 7), ("R8", 8), ("QF", 9), ("SF", 10), ("F", 11)]

/-- `Series.map(dict)`: per-element dictionary lookup in which a key absent
from the dictionary yields a missing value (NaN) — it does not raise
`KeyError`, so the `try/except KeyError` wrappers in `build_features` can
never fire. -/
def seriesMapLookup (table : List (String × α)) (key : String) : Option α :=
  (table.find? (fun p => p.1 = key)).map (fun p => p.2)

/-- The feature columns the verified claims are about: the label and the
two dictionary-mapped columns, plus the retained identifier columns. (The
age and month columns are floating-point derived data not touched by any
claim.) -/
structure FeatureRow where
  result : String
  id_home : Option Int
  id_away : Option Int
  surface : Option String
  round_ordinal : Option Nat
deriving DecidableEq, Repr

/-- The per-row core of `build_features`: the label application raises on
a malformed result; the surface and round-ordinal columns are `map`
lookups that leave absent keys missing. -/
def build_feature_row (r : EnrichedRow) : Except String FeatureRow :=
  match define_label r.result with
  | .error e => .error e
  | .ok label =>
    .ok { result := label, id_home := r.id_home, id_away := r.id_away,
          surface := seriesMapLookup tournament_surfaces r.uniqueTournament,
          round_ordinal := seriesMapLookup ordinal_mapping r.round_description }

/-- `build_features` over the whole enriched table (the date re-sort does
not change which rows exist or whether some row raises). -/
def build_features : List EnrichedRow → Except String (List FeatureRow)
  | [] => .ok []
  | r :: rs =>
    match build_feature_row r with
    | .error e => .error e
    | .ok f =>
      match build_features rs with
      | .error e => .error e
      | .ok rest => .ok (f :: rest)

/-! ### Helper lemmas -/

set_option maxHeartbeats 1000000

/-- The mirrored row written out field by field, as the spec enumerates it:
every `home`-named column swapped with its `away` counterpart and the
`result` string reversed. -/
def mirrorRow (r : EnrichedRow) : EnrichedRow :=
  { r with
    homeTeamScore := r.awayTeamScore, awayTeamScore := r.homeTeamScore,
    home_id := r.away_id, away_id := r.home_id,
    id_home := r.id_away, id_away := r.id_home,
    name_home := r.name_away, name_away := r.name_home,
    birthdate_home := r.birthdate_away, birthdate_away := r.birthdate_home,
    result := reverse_result r.result }

/-- The column-name-driven swap loop computes exactly the enumerated
field-by-field mirror. -/
theorem swapRow_eq_mirror (r : EnrichedRow) : swapRow r = mirrorRow r := by
  cases r
  simp only [swapRow, enrichedColumns, List.foldl, swapStep, strContainsSub,
    replaceAll]
  rfl

/-- The de-duplication fold preserves the no-duplicates invariant of its
accumulator. -/
theorem foldl_dedupStep_nodup [DecidableEq α] :
    ∀ (l acc : List α), acc.Nodup → (l.foldl dedupStep acc).Nodup := by
  intro l
  induction l with
  | nil => intro acc h; exact h
  | cons x xs ih =>
    intro acc h
    refine ih _ ?_
    unfold dedupStep
    split
    · exact h
    · next hx => simp [List.nodup_append, h, hx]

/-- `dropDuplicates` yields a list without duplicate rows. -/
theorem nodup_dropDuplicates [DecidableEq α] (l : List α) :
    (dropDuplicates l).Nodup :=
  foldl_dedupStep_nodup l [] List.nodup_nil

/-- Every element of a `zipWith` comes from a pair of members. -/
theorem mem_zipWith_exists {f : α → β → γ} {c : γ} :
    ∀ {l1 : List α} {l2 : List β}, c ∈ List.zipWith f l1 l2 →
      ∃ a b, a ∈ l1 ∧ b ∈ l2 ∧ c = f a b := by
  intro l1
  induction l1 with
  | nil => intro l2 h; simp at h
  | cons a as ih =>
    intro l2 h
    cases l2 with
    | nil => simp at h
    | cons b bs =>
      rcases List.mem_cons.mp h with h | h
      · exact ⟨a, b, List.mem_cons_self _ _, List.mem_cons_self _ _, h⟩
      · obtain ⟨a', b', ha, hb, hc⟩ := ih h
        exact ⟨a', b', List.mem_cons_of_mem _ ha, List.mem_cons_of_mem _ hb, hc⟩

/-! ### Claim C3 -/

/-- A sample enriched row for instantiating the C3 theorem. -/
def C3row : EnrichedRow :=
  { finished := true, result := some "3:1", homeTeamScore := "3",
    awayTeamScore := "1", id := some 7, events := none,
    seriesStartDate := some 100, home_id := some 1, away_id := some 2,
    round_description := "F", tournamentName := "AO",
    uniqueTournament := "Australian Open", id_home := some 1,
    name_home := "A", birthdate_home := 86400, id_away := some 2,
    name_away := "B", birthdate_away := 172800 }

/-- C3: one application of `symmetrize_games` returns exactly twice as many
rows, all original rows first followed by all mirrored rows with no
interleaving (positional indexing models the fresh contiguous row index),
each mirrored row having every `home`-named column swapped with its `away`
counterpart, and the result string `"H:A"` reversed to `"A:H"`. -/
theorem C3_symmetrize (df : List EnrichedRow) :
    (symmetrize_games df).length = 2 * df.length ∧
    (symmetrize_games df).take df.length = df ∧
    (symmetrize_games df).drop df.length = df.map swapRow ∧
    (∀ r ∈ df, swapRow r = mirrorRow r) ∧
    (∀ (a b : Char), a ≠ ':' → b ≠ ':' →
      reverse_result (some (String.mk [a, ':', b])) =
        some (String.mk [b, ':', a])) := by
  refine ⟨?_, ?_, ?_, fun r _ => swapRow_eq_mirror r, ?_⟩
  · simp [symmetrize_games, two_mul]
  · show (df ++ df.map swapRow).take df.length = df
    exact List.take_left df (df.map swapRow)
  · show (df ++ df.map swapRow).drop df.length = df.map swapRow
    exact List.drop_left df (df.map swapRow)
  · intro a b ha hb
    simp [reverse_result, splitColon, splitCharAux, ha, hb]
    rfl

/-- C3 witness: the theorem instantiated on a one-row table and on the
score `"3:1"`. -/
theorem C3_symmetrize_witness :
    (symmetrize_games [C3row]).length = 2 * [C3row].length ∧
    reverse_result (some (String.mk ['3', ':', '1'])) =
      some (String.mk ['1', ':', '3']) :=
  ⟨(C3_symmetrize [C3row]).1,
   (C3_symmetrize [C3row]).2.2.2.2 '3' '1' (by decide) (by decide)⟩

/-! ### Claim C1 -/

/-- Sample team builder for concrete inputs. -/
def mkTeam (i rank : Int) : Team :=
  { id := some i, name := "p" ++ toString i, slug := "s", shortName := "n",
    gender := "M", nameCode := "c", ranking := some rank,
    disabled := false, national := false }

/-- Sample participant builder for concrete inputs. -/
def mkPart (i : Int) : Participant :=
  { team := mkTeam i i, winner := none, order := none, teamSeed := none }

/-- A tied block: an `on-going`-style score `"1:1"`, which the flattener
accepts (only `retired`/`walkover`/`0:0` are skipped). -/
def C1blockTie : Block :=
  { id := some 10, finished := true, result := some "1:1",
    homeTeamScore := "1", awayTeamScore := "1",
    participants := [mkPart 1, mkPart 2],
    seriesStartDateTimestamp := some 1000, events := none }

/-- A one-block bracket carrying the tied score. -/
def C1bracket : BracketDoc :=
  { tournamentName := "AO", uniqueTournament := "Australian Open",
    rounds := [{ description := "Final", blocks := [C1blockTie] }] }

/-- The tied enriched row. -/
def C1rowTie : EnrichedRow :=
  { finished := true, result := some "1:1", homeTeamScore := "1",
    awayTeamScore := "1", id := some 10, events := none,
    seriesStartDate := some 1000, home_id := some 1, away_id := some 2,
    round_description := "F", tournamentName := "AO",
    uniqueTournament := "Australian Open", id_home := some 1,
    name_home := "p1", birthdate_home := 86400, id_away := some 2,
    name_away := "p2", birthdate_away := 172800 }

/-- C1 counterexample: the tied score `"1:1"` passes the score regex, is
emitted by the flattener, and its symmetrized pair gets the SAME label on
both rows (`away` and `away`), contradicting the never-equal claim. -/
theorem C1_counterexample :
    validate_score_format (some "1:1") = true ∧
    (extract_games_from_cuptree [C1bracket]).map (List.map MatchRecord.result) =
      .ok [some "1:1"] ∧
    symmetrize_games [C1rowTie] = [C1rowTie, swapRow C1rowTie] ∧
    (swapRow C1rowTie).result = some "1:1" ∧
    define_label C1rowTie.result = .ok "away" ∧
    define_label (swapRow C1rowTie).result = .ok "away" :=
  ⟨by decide, by decide, rfl, by decide, by decide, by decide⟩

/-- C1 (amended): the symmetrized table has exactly the original and the
mirrored row for each input row; for a single-digit score `"H:A"` the two
rows' labels are opposite classes whenever `H ≠ A`, while for a tied score
(`H = A`, e.g. `"1:1"`, which the pipeline accepts) both rows are labelled
`away`, because the label is `home` only on a strict `H > A`. -/
theorem C1_pair_labels (r : EnrichedRow) (d1 d2 : Nat) (h1 : d1 ≤ 9) (h2 : d2 ≤ 9)
    (hr : r.result = some (String.mk [Nat.digitChar d1, ':', Nat.digitChar d2])) :
    symmetrize_games [r] = [r, swapRow r] ∧
    (d1 ≠ d2 →
      (define_label r.result = .ok "home" ∧
       define_label (swapRow r).result = .ok "away") ∨
      (define_label r.result = .ok "away" ∧
       define_label (swapRow r).result = .ok "home")) ∧
    (d1 = d2 →
      define_label r.result = .ok "away" ∧
      define_label (swapRow r).result = .ok "away") := by
  have hs : (swapRow r).result = reverse_result r.result := by
    rw [swapRow_eq_mirror]; rfl
  refine ⟨rfl, ?_, ?_⟩
  · intro hne
    rw [hs, hr]
    interval_cases d1 <;> interval_cases d2 <;> revert hne <;> decide
  · intro heq
    subst heq
    rw [hs, hr]
    interval_cases d1 <;> exact ⟨by decide, by decide⟩

/-- The enriched row used to instantiate `C1_pair_labels`. -/
def C1wrow : EnrichedRow :=
  { C1rowTie with result := some "2:1", homeTeamScore := "2" }

/-- C1 witness: the amended theorem applied at the concrete score `"2:1"`. -/
theorem C1_pair_labels_witness :
    (define_label C1wrow.result = .ok "home" ∧
     define_label (swapRow C1wrow).result = .ok "away") ∨
    (define_label C1wrow.result = .ok "away" ∧
     define_label (swapRow C1wrow).result = .ok "home") :=
  (C1_pair_labels C1wrow 2 1 (by decide) (by decide) (by decide)).2.1 (by decide)

/-! ### Claim C2 -/

/-- An enriched row whose `uniqueTournament` is absent from the fixed
surface table. -/
def C2row : EnrichedRow :=
  { finished := true, result := some "2:1", homeTeamScore := "2",
    awayTeamScore := "1", id := some 11, events := none,
    seriesStartDate := some 1000, home_id := some 1, away_id := some 2,
    round_description := "F", tournamentName := "Wimbledon",
    uniqueTournament := "Wimbledon", id_home := some 1,
    name_home := "p1", birthdate_home := 86400, id_away := some 2,
    name_away := "p2", birthdate_away := 172800 }

/-- C2: evaluating the feature builder at the failing input. A
surface-table-absent `uniqueTournament` ("Wimbledon") does NOT raise:
`Series.map` yields a missing value for an absent key instead of a
`KeyError`, so the `try/except KeyError` in `build_features` never fires
and the row is emitted with an empty surface. -/
theorem C2_surface_silent_missing :
    seriesMapLookup tournament_surfaces "Wimbledon" = none ∧
    build_features [C2row] =
      .ok [{ result := "home", id_home := some 1, id_away := some 2,
             surface := none, round_ordinal := some 11 }] :=
  ⟨by decide, by decide⟩

/-! ### Claim C4 -/

/-- C4: the round classifier returns the empty sentinel on the empty
label, returns `"Q"` for any label containing `qualification`/`qualifying`
case-insensitively (overriding the exact-match table), maps
`"Quarterfinal"` to `"QF"` and `"1/8"` to `"R8"` by the fixed table, and
raises on every non-empty label matching neither — never silently
defaulting. -/
theorem C4_round_classifier :
    map_round_description "" = .ok "" ∧
    (∀ s : String, containsQualSubstr s = true →
      map_round_description s = .ok "Q") ∧
    map_round_description "Quarterfinal" = .ok "QF" ∧
    map_round_description "1/8" = .ok "R8" ∧
    containsQualSubstr "anything containing QUALIFYING" = true ∧
    (∀ s : String, s ≠ "" → containsQualSubstr s = false →
      round_map.find? (fun p => p.1 = s) = none →
      map_round_description s = .error ("Unknown round description: " ++ s)) := by
  refine ⟨by decide, ?_, by decide, by decide, by decide, ?_⟩
  · intro s hq
    by_cases he : s = ""
    · subst he; exact absurd hq (by decide)
    · simp [map_round_description, he, hq]
  · intro s he hq hm
    simp [map_round_description, he, hq, hm]

/-- C4 witness: the two universally quantified branches instantiated
concretely — a label containing `QUALIFYING` classifies as `"Q"` and an
unknown label raises. -/
theorem C4_round_classifier_witness :
    map_round_description "anything containing QUALIFYING" = .ok "Q" ∧
    map_round_description "Unknown Stage Name" =
      .error ("Unknown round description: " ++ "Unknown Stage Name") :=
  ⟨C4_round_classifier.2.1 _ (by decide),
   C4_round_classifier.2.2.2.2.2 _ (by decide) (by decide) (by decide)⟩

/-! ### Claim C5 -/

/-- The participants list of a block is untouched by the sentinel rewrite. -/
theorem rewriteSentinel_participants (b : Block) :
    (rewriteSentinel b).participants = b.participants := by
  unfold rewriteSentinel; split <;> rfl

/-- C5: a block whose result is one of the sentinel status strings
`home won` / `away won` / `on-going` has its result rewritten to the
literal `"<homeTeamScore>:<awayTeamScore>"`, and the emitted MatchRecord
carries that concatenation. -/
theorem C5_sentinel_rewrite (tN uT desc : String) (b : Block) (rd : String)
    (hs : b.result = some "home won" ∨ b.result = some "away won" ∨
          b.result = some "on-going")
    (hp : b.participants ≠ [])
    (hd : map_round_description desc = .ok rd) :
    ∃ rec : MatchRecord,
      (processBlock tN uT desc b).2 = .ok (some rec) ∧
      rec.result = some (b.homeTeamScore ++ ":" ++ b.awayTeamScore) := by
  have hskip : isSkipped b = false := by
    rcases hs with h | h | h <;> simp only [isSkipped, h] <;> decide
  have hsent : isSentinel b = true := by
    rcases hs with h | h | h <;> simp only [isSentinel, h] <;> decide
  have hb' : rewriteSentinel b =
      { b with result := some (b.homeTeamScore ++ ":" ++ b.awayTeamScore) } := by
    simp [rewriteSentinel, hsent]
  cases hpp : b.participants with
  | nil => exact absurd hpp hp
  | cons p rest =>
    simp only [processBlock, hskip, Bool.false_eq_true, if_false, hb', hpp, hd]
    exact ⟨_, rfl, rfl⟩

/-- The concrete `home won` block of the spec's example: scores 2 and 1. -/
def C5block : Block :=
  { id := some 20, finished := true, result := some "home won",
    homeTeamScore := "2", awayTeamScore := "1",
    participants := [mkPart 1, mkPart 2],
    seriesStartDateTimestamp := some 1000, events := none }

/-- C5 witness: the `home won` block with scores `"2"`, `"1"` yields a
MatchRecord whose result is `"2:1"`. -/
theorem C5_sentinel_rewrite_witness :
    ∃ rec : MatchRecord,
      (processBlock "t" "u" "Final" C5block).2 = .ok (some rec) ∧
      rec.result = some "2:1" := by
  obtain ⟨rec, h1, h2⟩ :=
    C5_sentinel_rewrite "t" "u" "Final" C5block "F"
      (Or.inl (by decide)) (by decide) (by decide)
  exact ⟨rec, h1, h2.trans (by decide)⟩

/-! ### Claim C6 -/

/-- C6: a block reaching the score-validation check whose (possibly
rewritten) result fails the score-format predicate is still emitted as a
MatchRecord with that result — validation never drops a row at the
flattening stage. -/
theorem C6_validation_soft (tN uT desc : String) (b : Block) (rd : String)
    (hns : isSkipped b = false)
    (hv : validate_score_format (rewriteSentinel b).result = false)
    (hp : b.participants ≠ [])
    (hd : map_round_description desc = .ok rd) :
    ∃ rec : MatchRecord,
      (processBlock tN uT desc b).2 = .ok (some rec) ∧
      rec.result = (rewriteSentinel b).result := by
  cases hpp : b.participants with
  | nil => exact absurd hpp hp
  | cons p rest =>
    have hpp' : (rewriteSentinel b).participants = p :: rest := by
      rw [rewriteSentinel_participants, hpp]
    simp only [processBlock, hns, Bool.false_eq_true, if_false, hpp', hd]
    exact ⟨_, rfl, rfl⟩

/-- A block with the malformed score `"10:2"` (rejected by the regex, not
skipped and not a sentinel). -/
def C6block : Block :=
  { id := some 21, finished := true, result := some "10:2",
    homeTeamScore := "10", awayTeamScore := "2",
    participants := [mkPart 1, mkPart 2],
    seriesStartDateTimestamp := some 1000, events := none }

/-- C6 witness: the malformed score `"10:2"` fails validation yet the
block is still emitted with that score. -/
theorem C6_validation_soft_witness :
    validate_score_format (some "10:2") = false ∧
    ∃ rec : MatchRecord,
      (processBlock "t" "u" "Final" C6block).2 = .ok (some rec) ∧
      rec.result = some "10:2" := by
  refine ⟨by decide, ?_⟩
  obtain ⟨rec, h1, h2⟩ :=
    C6_validation_soft "t" "u" "Final" C6block "F"
      (by decide) (by decide) (by decide) (by decide)
  exact ⟨rec, h1, h2.trans (by decide)⟩

/-! ### Claim C10 -/

/-- C10: the skip test lowercases the result (so `Retired` skips like
`retired`), but the sentinel rewrite compares exactly; a block whose
result is not in the lowercased skip set and differs (if only in casing)
from the exact sentinel strings is neither skipped nor rewritten, and its
un-normalized result reaches the MatchRecord unchanged. -/
theorem C10_case_sensitivity (tN uT desc : String) (b : Block) (r rd : String)
    (hr : b.result = some r) :
    (skipResults.contains (toLowerStr r) = true →
      processBlock tN uT desc b = (b, .ok none)) ∧
    (skipResults.contains (toLowerStr r) = false →
     sentinelResults.contains r = false →
      (processBlock tN uT desc b).1 = b ∧
      (processBlock tN uT desc b).1.result = some r ∧
      (map_round_description desc = .ok rd → b.participants ≠ [] →
        ∃ rec, (processBlock tN uT desc b).2 = .ok (some rec) ∧
          rec.result = some r)) := by
  constructor
  · intro hskip
    have h1 : isSkipped b = true := by simp only [isSkipped, hr]; exact hskip
    simp [processBlock, h1]
  · intro hskip hsent
    have h1 : isSkipped b = false := by simp only [isSkipped, hr]; exact hskip
    have h2 : isSentinel b = false := by simp only [isSentinel, hr]; exact hsent
    have hb' : rewriteSentinel b = b := by simp [rewriteSentinel, h2]
    refine ⟨?_, ?_, ?_⟩
    · cases hpp : b.participants with
      | nil => simp only [processBlock, h1, Bool.false_eq_true, if_false, hb', hpp]
      | cons p rest =>
        simp only [processBlock, h1, Bool.false_eq_true, if_false, hb', hpp]
        cases map_round_description desc <;> rfl
    · cases hpp : b.participants with
      | nil =>
        simp only [processBlock, h1, Bool.false_eq_true, if_false, hb', hpp, hr]
      | cons p rest =>
        simp only [processBlock, h1, Bool.false_eq_true, if_false, hb', hpp, hr]
        cases map_round_description desc <;> simp [hr]
    · intro hd hp
      cases hpp : b.participants with
      | nil => exact absurd hpp hp
      | cons p rest =>
        simp only [processBlock, h1, Bool.false_eq_true, if_false, hb', hpp, hd]
        exact ⟨_, rfl, hr⟩

/-- A block whose result `"Home won"` differs only in casing from the
exact sentinel string `"home won"`. -/
def C10homeWonBlock : Block :=
  { id := some 22, finished := true, result := some "Home won",
    homeTeamScore := "2", awayTeamScore := "1",
    participants := [mkPart 1, mkPart 2],
    seriesStartDateTimestamp := some 1000, events := none }

/-- A block whose result `"Retired"` matches the skip set only after
lowercasing. -/
def C10retiredBlock : Block :=
  { C10homeWonBlock with id := some 23, result := some "Retired" }

/-- C10 witness: `"Retired"` is skipped case-insensitively, while
`"Home won"` is neither skipped nor rewritten and reaches the output
record unchanged. -/
theorem C10_case_sensitivity_witness :
    processBlock "t" "u" "Final" C10retiredBlock = (C10retiredBlock, .ok none) ∧
    ∃ rec, (processBlock "t" "u" "Final" C10homeWonBlock).2 = .ok (some rec) ∧
      rec.result = some "Home won" := by
  constructor
  · exact (C10_case_sensitivity "t" "u" "Final" C10retiredBlock "Retired" "F"
      (by decide)).1 (by decide)
  · obtain ⟨_, _, h3⟩ :=
      (C10_case_sensitivity "t" "u" "Final" C10homeWonBlock "Home won" "F"
        (by decide)).2 (by decide) (by decide)
    exact h3 (by decide) (by decide)

/-! ### Claim C7 -/

/-- A bracket referencing team id 1 with ranking 5. -/
def C7bracketA : BracketDoc :=
  { tournamentName := "AO", uniqueTournament := "Australian Open",
    rounds := [{ description := "Final", blocks :=
      [{ id := some 30, finished := true, result := some "2:1",
         homeTeamScore := "2", awayTeamScore := "1",
         participants := [{ team := mkTeam 1 5, winner := none,
                            order := none, teamSeed := none }],
         seriesStartDateTimestamp := none, events := none }] }] }

/-- A second bracket referencing the same team id 1 but with ranking 7. -/
def C7bracketB : BracketDoc :=
  { tournamentName := "RG", uniqueTournament := "Roland Garros",
    rounds := [{ description := "Final", blocks :=
      [{ id := some 31, finished := true, result := some "2:0",
         homeTeamScore := "2", awayTeamScore := "0",
         participants := [{ team := mkTeam 1 7, winner := none,
                            order := none, teamSeed := none }],
         seriesStartDateTimestamp := none, events := none }] }] }

/-- C7 counterexample: the de-duplicated cross-bracket roster keeps team
id 1 twice, because `drop_duplicates()` compares whole rows and the two
brackets carry different rankings for the same id. -/
theorem C7_counterexample :
    (allParticipants [[C7bracketA], [C7bracketB]]).length = 2 ∧
    (allParticipants [[C7bracketA], [C7bracketB]]).map ParticipantRow.id =
      [some 1, some 1] ∧
    (allParticipants [[C7bracketA], [C7bracketB]]).map ParticipantRow.ranking =
      [some 5, some 7] :=
  ⟨by decide, by decide, by decide⟩

/-- C7 (amended): the roster contains each complete projected attribute
row at most once — de-duplication is by the entire row, so a team id
appears only once exactly when its attributes agree across brackets,
while differing attributes (e.g. ranking) leave one row per distinct
attribute tuple of that id. -/
theorem C7_roster_row_nodup (files : List (List BracketDoc)) :
    (allParticipants files).Nodup :=
  nodup_dropDuplicates _

/-! ### Claim C8 -/

/-- A participant whose raw dict has `winner`/`order`/`teamSeed` set. -/
def C8part : Participant :=
  { team := mkTeam 3 4, winner := some true, order := some 1,
    teamSeed := some "1" }

/-- A sentinel-status block holding that participant. -/
def C8block : Block :=
  { id := some 40, finished := true, result := some "home won",
    homeTeamScore := "2", awayTeamScore := "1",
    participants := [C8part],
    seriesStartDateTimestamp := some 1000, events := none }

/-- The same block with a plain (non-sentinel) score. -/
def C8plainBlock : Block :=
  { C8block with id := some 41, result := some "2:1" }

/-- C8 counterexample: the pipeline is not read-only. Match extraction
rewrites the sentinel block's `result` in place (the post-state block
differs from the input), and roster extraction writes the `winner` key
into the participant's team sub-record. -/
theorem C8_counterexample :
    (processBlock "t" "u" "Final" C8block).1.result = some "2:1" ∧
    (processBlock "t" "u" "Final" C8block).1 ≠ C8block ∧
    mutateTeam C8part ≠ C8part.team ∧
    (mutateTeam C8part).winner = some true ∧
    C8part.team.winner = none :=
  ⟨by decide, by decide, by decide, by decide, by decide⟩

/-- C8 (amended): the flattener mutates its inputs in a limited way:
the post-state of a processed block is the input block unless the block
is unskipped with a sentinel result, in which case its `result` is
overwritten with `"<homeTeamScore>:<awayTeamScore>"`; and roster
extraction writes `winner`/`order`/`teamSeed` from the participant into
its team sub-record, leaving the team's other fields unchanged. -/
theorem C8_mutation (tN uT desc : String) (b : Block) (p : Participant) :
    ((processBlock tN uT desc b).1 =
      if isSkipped b then b else rewriteSentinel b) ∧
    (isSkipped b = false → isSentinel b = true →
      (processBlock tN uT desc b).1.result =
        some (b.homeTeamScore ++ ":" ++ b.awayTeamScore)) ∧
    (isSentinel b = false → (processBlock tN uT desc b).1 = b) ∧
    (mutateTeam p).winner = p.winner ∧ (mutateTeam p).order = p.order ∧
    (mutateTeam p).teamSeed = p.teamSeed ∧ (mutateTeam p).id = p.team.id ∧
    (mutateTeam p).name = p.team.name ∧
    (mutateTeam p).ranking = p.team.ranking := by
  have hpost : (processBlock tN uT desc b).1 =
      if isSkipped b then b else rewriteSentinel b := by
    by_cases h : isSkipped b
    · simp [processBlock, h]
    · simp only [processBlock, h, Bool.false_eq_true, if_false]
      cases hpp : (rewriteSentinel b).participants with
      | nil => rfl
      | cons p rest => cases map_round_description desc <;> rfl
  refine ⟨hpost, ?_, ?_, rfl, rfl, rfl, rfl, rfl, rfl⟩
  · intro h1 h2
    rw [hpost]
    simp [h1, rewriteSentinel, h2]
  · intro h2
    rw [hpost]
    split <;> simp [rewriteSentinel, h2]

/-- C8 witness: the amended mutation characterization applied to the
concrete sentinel block (`result` rewritten to `"2:1"`) and to the plain
block (left unchanged). -/
theorem C8_mutation_witness :
    (processBlock "t" "u" "Final" C8block).1.result =
      some ("2" ++ ":" ++ "1") ∧
    (processBlock "t" "u" "Final" C8plainBlock).1 = C8plainBlock :=
  ⟨(C8_mutation "t" "u" "Final" C8block C8part).2.1 (by decide) (by decide),
   (C8_mutation "t" "u" "Final" C8plainBlock C8part).2.2.1 (by decide)⟩

/-! ### Claim C9 -/

/-- C9 counterexample: no draw admissible for `np.random.randint(birthLow,
birthHigh, n)` — whose upper bound is exclusive — can ever produce the
birthdate 2005-12-31 (`birthHigh` seconds, i.e. midnight of 2005-12-31):
the claimed inclusive upper calendar bound is unreachable. -/
theorem C9_counterexample :
    ¬ ∃ (draw : Nat → Nat → Nat → List Nat) (roster : List ParticipantRow)
        (pf : PartFeature),
      (∀ v ∈ draw birthLow birthHigh roster.length,
        birthLow ≤ v ∧ v < birthHigh) ∧
      pf ∈ participant_features draw roster ∧
      pf.birthdate = birthHigh := by
  rintro ⟨draw, roster, pf, hcontract, hmem, hbd⟩
  simp only [participant_features] at hmem
  obtain ⟨r, b, hr, hb, hpf⟩ := mem_zipWith_exists hmem
  have hlt : b < birthHigh := (hcontract b hb).2
  rw [hpf] at hbd
  simp only [normalizeDay, birthHigh] at hbd hlt
  omega

/-- C9 (amended): with the fixed seed, `participant_features` assigns one
synthetic birthdate per roster row, each a midnight-normalized timestamp
drawn from the half-open window [1970-01-01, 2005-12-31) — so the latest
possible birthdate is 2005-12-30 (1135900800 seconds); repeated runs over
the same roster reuse the same fixed generator and yield identical
birthdates. -/
theorem C9_birthdate_window (draw : Nat → Nat → Nat → List Nat)
    (roster : List ParticipantRow)
    (hlen : (draw birthLow birthHigh roster.length).length = roster.length)
    (hb : ∀ v ∈ draw birthLow birthHigh roster.length,
      birthLow ≤ v ∧ v < birthHigh) :
    (participant_features draw roster).length = roster.length ∧
    ∀ pf ∈ participant_features draw roster,
      birthLow ≤ pf.birthdate ∧ pf.birthdate ≤ 1135900800 ∧
      pf.birthdate % 86400 = 0 := by
  constructor
  · simp [participant_features, hlen]
  · intro pf hmem
    simp only [participant_features] at hmem
    obtain ⟨r, b, hr, hbm, hpf⟩ := mem_zipWith_exists hmem
    have hlt : b < birthHigh := (hb b hbm).2
    rw [hpf]
    simp only [normalizeDay, birthHigh, birthLow] at hlt ⊢
    omega

/-- A degenerate deterministic generator satisfying the randint contract
at the instantiated call. -/
def C9draw0 : Nat → Nat → Nat → List Nat := fun low _ n => List.replicate n low

/-- A one-row roster for the C9 witness. -/
def C9roster0 : ParticipantRow := projectParticipant (mkTeam 1 1)

/-- C9 witness: the window theorem applied to the concrete one-row roster
and the degenerate generator. -/
theorem C9_birthdate_window_witness :
    (participant_features C9draw0 [C9roster0]).length = [C9roster0].length ∧
    ∀ pf ∈ participant_features C9draw0 [C9roster0],
      birthLow ≤ pf.birthdate ∧ pf.birthdate ≤ 1135900800 ∧
      pf.birthdate % 86400 = 0 :=
  C9_birthdate_window C9draw0 [C9roster0] (by decide) (by decide)
